import Mathlib

/-
Verification of the `ts-optchain` traversal wrapper (src/dist/index.js).

The whole library is a single recursive function

    function oc(data, parentKey) {
        return new Proxy((function (defaultValue) {
            return data == null ? defaultValue : data;
        }), {
            get: function (target, key) {
                if (key === '_err') {
                    return (function (errorMsg) {
                        if (data == null) {
                            throw new Error(errorMsg || String(parentKey) + " is not set");
                        }
                        return data;
                    });
                }
                var obj = target();
                return oc(typeof obj === 'object' ? obj[key] : undefined, key);
            },
        });
    }

We embed it shallowly: a handle is the pair of closed-over values
(data, parentKey); the proxy target (the terminal call) is `terminalCall`;
the proxy `get` trap is `get`, which either returns the strict-check
operation (for the reserved key '_err') or the recursive wrap of the
nested value (`lookupStep`).  JavaScript values are modelled by the
inductive `JSValue`; functions are opaque tags (the code never invokes a
wrapped function, it only tests its typeof).
-/

namespace TsOptchain

/-- Model of a JavaScript runtime value as far as the traversal code can
observe it: `undefined`, `null`, booleans, numbers (the claims only use
integral values), strings, opaque function values, arrays and plain
objects (association lists of string keys, unique by construction in JS). -/
inductive JSValue where
  | undefined : JSValue
  | null : JSValue
  | bool (b : Bool) : JSValue
  | num (n : Int) : JSValue
  | str (s : String) : JSValue
  | fn (tag : Nat) : JSValue
  | arr (elems : List JSValue) : JSValue
  | obj (fields : List (String × JSValue)) : JSValue

/-- JavaScript `data == null`: loose equality with null holds exactly for
`null` and `undefined` (the spec's "absent" condition). -/
def isAbsent : JSValue → Bool
  | .undefined => true
  | .null => true
  | _ => false

/-- JavaScript `typeof v === 'object'`: true for plain objects, arrays and
(famously) `null`; false for functions (`typeof` is 'function'), strings,
numbers, booleans and `undefined`. -/
def typeofIsObject : JSValue → Bool
  | .null => true
  | .arr _ => true
  | .obj _ => true
  | _ => false

/-- Decimal digit value of a character (code points 48 through 57), or
`none` for every other character. -/
def digitVal (c : Char) : Option Nat :=
  if 48 ≤ c.toNat ∧ c.toNat ≤ 57 then some (c.toNat - 48) else none

/-- Accumulate the remaining digits of a decimal numeral; `none` on the
first non-digit. -/
def parseDigits (acc : Nat) : List Char → Option Nat
  | [] => some acc
  | c :: cs =>
      match digitVal c with
      | some d => parseDigits (acc * 10 + d) cs
      | none => none

/-- Canonical array-index parse: JavaScript treats the key "3" as index 3
of an array, but only the canonical decimal numeral — "03" or "" is an
ordinary (normally absent) property, so only "0" or a numeral starting
with a nonzero digit parses. -/
def parseIndex (s : String) : Option Nat :=
  match s.data with
  | [] => none
  | ['0'] => some 0
  | c :: cs =>
      match digitVal c with
      | some d => if d = 0 then none else parseDigits d cs
      | none => none

/-- Property read on an object literal: first binding for the key, or
`undefined` when the key is missing (JS `obj[key]`). -/
def lookupField : List (String × JSValue) → String → JSValue
  | [], _ => .undefined
  | (k, v) :: rest, key => if k = key then v else lookupField rest key

/-- JavaScript `obj[key]` restricted to the values the code ever reads a
property from (the `typeof obj === 'object'` guard, with `null` already
ruled out by the terminal call): objects yield the bound field or
`undefined`; arrays yield `length`, an in-bounds element, or `undefined`.
On every other value the code never performs the read, so the catch-all
arm is unreachable from `lookupStep`. -/
def getProp : JSValue → String → JSValue
  | .obj fields, key => lookupField fields key
  | .arr elems, key =>
      if key = "length" then .num elems.length
      else
        match parseIndex key with
        | some i => elems.getD i .undefined
        | none => .undefined
  | _, _ => .undefined

/-- A traversal handle: exactly the two values the JS closure `oc(data,
parentKey)` closes over.  `parentKey` is `none` at the root (the JS
`undefined`), `some k` after a lookup of key `k`. -/
structure Handle where
  data : JSValue
  parentKey : Option String

/-- The constructor `oc(data, parentKey)`. -/
def oc (data : JSValue) (parentKey : Option String) : Handle :=
  ⟨data, parentKey⟩

/-- The public entry point `oc(rootValue)` (spec §6 calls it `wrap`):
no parent key is recorded at the root. -/
def wrap (x : JSValue) : Handle := oc x none

/-- The proxy target, i.e. the terminal call
`(defaultValue) => data == null ? defaultValue : data`.
Calling with no argument is calling with `defaultValue = undefined`. -/
def terminalCall (h : Handle) (defaultValue : JSValue) : JSValue :=
  if isAbsent h.data then defaultValue else h.data

/-- The no-argument terminal call: in JS a missing argument is
`undefined`. -/
def terminalCallNoArg (h : Handle) : JSValue :=
  terminalCall h .undefined

/-- One lookup for an ordinary (non-'_err') key: the `get` trap computes
`obj = target()` and returns `oc(typeof obj === 'object' ? obj[key] :
undefined, key)`. -/
def lookupStep (h : Handle) (key : String) : Handle :=
  let obj := terminalCallNoArg h
  oc (if typeofIsObject obj then getProp obj key else .undefined) (some key)

/-- Result of the proxy `get` trap: either the strict-check operation
(a closure over the same `data` and `parentKey`, represented by the
handle it closes over) or a nested traversal handle. -/
inductive GetResult where
  | errOp (h : Handle) : GetResult
  | handle (h : Handle) : GetResult

/-- The proxy `get` trap: the reserved key '_err' is intercepted before
the general lookup rule; every other key goes through `lookupStep`. -/
def get (h : Handle) (key : String) : GetResult :=
  if key = "_err" then .errOp h else .handle (lookupStep h key)

/-- Result of invoking the strict-check closure: the present value, or a
thrown `Error` carrying a message. -/
inductive ErrResult where
  | ok (v : JSValue) : ErrResult
  | thrown (msg : String) : ErrResult

/-- JavaScript `String(parentKey)` for the closed-over parent key:
`String(undefined)` is the literal string "undefined". -/
def stringOfKey : Option String → String
  | none => "undefined"
  | some s => s

/-- JavaScript `errorMsg || fallback` where `errorMsg` is an optional
string: the fallback is used when the argument is missing (`undefined`)
or falsy — for strings, exactly the empty string. -/
def jsStringOr (errorMsg : Option String) (fallback : String) : String :=
  match errorMsg with
  | none => fallback
  | some s => if s = "" then fallback else s

/-- Invoking the strict-check closure returned for key '_err':
`if (data == null) throw new Error(errorMsg || String(parentKey) + " is
not set"); return data;`. -/
def errCall (h : Handle) (errorMsg : Option String) : ErrResult :=
  if isAbsent h.data then
    .thrown (jsStringOr errorMsg (stringOfKey h.parentKey ++ " is not set"))
  else .ok h.data

/-- Chained lookups through the proxy `get` trap; `none` when the chain
hits the reserved key and therefore yields the strict-check operation
instead of a handle. -/
def chainGet : Handle → List String → Option Handle
  | h, [] => some h
  | h, k :: ks =>
      match get h k with
      | .handle h2 => chainGet h2 ks
      | .errOp _ => none

/-- Chained ordinary lookups (the non-'_err' branch of the trap,
folded). -/
def chainStep (h : Handle) (p : List String) : Handle :=
  p.foldl lookupStep h

/-- Spec-side notion of a structured value ("mapping or sequence kind"):
a present object-like container.  This is the condition under which the
claims' guarded direct access reads a key. -/
def isStructured : JSValue → Bool
  | .arr _ => true
  | .obj _ => true
  | _ => false

/-- Modelled from the claim C1 wording, not from the source: the guarded
direct access `x.p1.p2...`, reading each key only if the container is
present and structured, and otherwise yielding `undefined`. -/
def guardedAccess : JSValue → List String → JSValue
  | x, [] => x
  | x, k :: ks =>
      if isStructured x then guardedAccess (getProp x k) ks else .undefined

/-- Collapse of an absent value to `undefined`, as performed by the
no-argument terminal call. -/
def denull (v : JSValue) : JSValue :=
  if isAbsent v then .undefined else v

/-- The concrete root object of the spec's §8 scenario 6:
`{a:'hello', b:{d:'world'}, c:[-100,200,-300], d:null, e:{f:false}}`. -/
def exampleRoot : JSValue :=
  .obj [("a", .str "hello"),
        ("b", .obj [("d", .str "world")]),
        ("c", .arr [.num (-100), .num 200, .num (-300)]),
        ("d", .null),
        ("e", .obj [("f", .bool false)])]

/-- The no-argument terminal call is exactly the absent-to-`undefined`
collapse of the wrapped value. -/
lemma terminalCallNoArg_eq_denull (h : Handle) :
    terminalCallNoArg h = denull h.data := rfl

/-- One ordinary lookup, in closed form: the nested value is the property
read when the current value is a present structured container, and
`undefined` otherwise; the key becomes the new path label. -/
lemma lookupStep_eq (v : JSValue) (pk : Option String) (k : String) :
    lookupStep ⟨v, pk⟩ k =
      ⟨if isStructured v then getProp v k else .undefined, some k⟩ := by
  cases v <;> rfl

/-- Guarded access starting from `undefined` stays `undefined` for any
remaining path. -/
lemma guardedAccess_undef : ∀ ks : List String, guardedAccess .undefined ks = .undefined
  | [] => rfl
  | _ :: ks => by
      simp [guardedAccess, isStructured, guardedAccess_undef ks]

/-- The wrapped value after a chain of ordinary lookups is exactly the
guarded direct access along the same path. -/
lemma chainStep_data :
    ∀ (ks : List String) (v : JSValue) (pk : Option String),
      (chainStep ⟨v, pk⟩ ks).data = guardedAccess v ks
  | [], _, _ => rfl
  | k :: ks, v, pk => by
      have hstep : chainStep ⟨v, pk⟩ (k :: ks)
          = chainStep (lookupStep ⟨v, pk⟩ k) ks := rfl
      rw [hstep, lookupStep_eq]
      by_cases hs : isStructured v
      · rw [if_pos hs, chainStep_data ks, guardedAccess, if_pos hs]
      · rw [if_neg hs, chainStep_data ks, guardedAccess, if_neg hs,
          guardedAccess_undef]

/-- On a path free of the reserved key, the proxy `get` trap always takes
the ordinary-lookup branch, so the chain is the fold of `lookupStep`. -/
lemma chainGet_eq_chainStep :
    ∀ (ks : List String), "_err" ∉ ks → ∀ h : Handle,
      chainGet h ks = some (chainStep h ks)
  | [], _, _ => rfl
  | k :: ks, hmem, h => by
      have hk : k ≠ "_err" := fun hk => hmem (hk ▸ List.mem_cons_self k ks)
      have hks : "_err" ∉ ks := fun hks => hmem (List.mem_cons_of_mem _ hks)
      have htrap : get h k = .handle (lookupStep h k) := by
        rw [get, if_neg hk]
      have hchain : chainGet h (k :: ks) = chainGet (lookupStep h k) ks := by
        rw [chainGet, htrap]
      rw [hchain, chainGet_eq_chainStep ks hks]
      rfl

/-- Looking up any key on an absent value yields the absent handle
wrapping `undefined`. -/
lemma lookupStep_absent (v : JSValue) (pk : Option String) (k : String)
    (hv : isAbsent v = true) :
    lookupStep ⟨v, pk⟩ k = ⟨.undefined, some k⟩ := by
  cases v with
  | undefined => rfl
  | null => rfl
  | _ => simp [isAbsent] at hv

/-- A chain of lookups starting from an absent value keeps an absent
wrapped value at every step. -/
lemma chainStep_absent :
    ∀ (ks : List String) (v : JSValue) (pk : Option String),
      isAbsent v = true → isAbsent (chainStep ⟨v, pk⟩ ks).data = true
  | [], _, _, hv => hv
  | k :: ks, v, pk, hv => by
      have hstep : chainStep ⟨v, pk⟩ (k :: ks)
          = chainStep (lookupStep ⟨v, pk⟩ k) ks := rfl
      rw [hstep, lookupStep_absent v pk k hv]
      exact chainStep_absent ks _ _ rfl

/-- C1: for every root value `x` and every path `p` of ordinary keys,
wrapping `x`, looking up the keys of `p` in order through the proxy trap,
and terminally calling with no argument returns the guarded direct access
`x.p1.p2...` (each key read only from a present structured container),
collapsed to `undefined` whenever any link along `p` is missing or
absent. -/
theorem chain_resolves_to_guarded_access (x : JSValue) (p : List String)
    (hp : "_err" ∉ p) :
    (chainGet (wrap x) p).map terminalCallNoArg
      = some (denull (guardedAccess x p)) := by
  rw [chainGet_eq_chainStep p hp, Option.map_some', terminalCallNoArg_eq_denull,
    wrap, oc, chainStep_data]

/-- Witness for C1 at the spec's scenario object and the path b.d. -/
theorem chain_resolves_to_guarded_access_witness :
    ("_err" ∉ ["b", "d"]) ∧
      (chainGet (wrap exampleRoot) ["b", "d"]).map terminalCallNoArg
        = some (denull (guardedAccess exampleRoot ["b", "d"])) :=
  ⟨by decide, chain_resolves_to_guarded_access exampleRoot ["b", "d"] (by decide)⟩

/-- C2: the terminal call returns the wrapped value unchanged when it is
present (even a falsy one such as `false`) and never returns `null`;
with no argument it returns `undefined` on an absent value; with a
non-absent default it returns the default exactly on an absent value. -/
theorem terminal_call_semantics :
    (∀ (v : JSValue) (pk : Option String), isAbsent v = false →
        terminalCallNoArg ⟨v, pk⟩ = v) ∧
    (∀ (v : JSValue) (pk : Option String), isAbsent v = true →
        terminalCallNoArg ⟨v, pk⟩ = .undefined) ∧
    (∀ (v d : JSValue) (pk : Option String), isAbsent v = false →
        terminalCall ⟨v, pk⟩ d = v) ∧
    (∀ (v d : JSValue) (pk : Option String),
        isAbsent v = true → isAbsent d = false →
          terminalCall ⟨v, pk⟩ d = d) ∧
    (∀ (d : JSValue) (pk : Option String),
        terminalCall ⟨.bool false, pk⟩ d = .bool false) := by
  refine ⟨?_, ?_, ?_, ?_, ?_⟩
  · intro v pk hv
    simp [terminalCallNoArg, terminalCall, hv]
  · intro v pk hv
    simp [terminalCallNoArg, terminalCall, hv]
  · intro v d pk hv
    simp [terminalCall, hv]
  · intro v d pk hv _
    simp [terminalCall, hv]
  · intro d pk
    simp [terminalCall, isAbsent]

/-- Witness for C2: a present value survives with or without a default, an
absent value yields `undefined` or the default, and present `false` is
returned, not replaced. -/
theorem terminal_call_semantics_witness :
    (isAbsent (.str "hello") = false ∧
        terminalCallNoArg ⟨.str "hello", none⟩ = .str "hello") ∧
    (isAbsent .null = true ∧ terminalCallNoArg ⟨.null, none⟩ = .undefined) ∧
    (isAbsent .null = true ∧ isAbsent (.num 1234) = false ∧
        terminalCall ⟨.null, none⟩ (.num 1234) = .num 1234) ∧
    terminalCall ⟨.bool false, some "f"⟩ (.num 7) = .bool false :=
  ⟨⟨rfl, terminal_call_semantics.1 (.str "hello") none rfl⟩,
   ⟨rfl, terminal_call_semantics.2.1 .null none rfl⟩,
   ⟨rfl, rfl, terminal_call_semantics.2.2.2.1 .null (.num 1234) none rfl rfl⟩,
   terminal_call_semantics.2.2.2.2 (.num 7) (some "f")⟩

/-- C3 counterexample: the caller-supplied message is NOT always used.
Supplying the empty string as `errorMessage` on an absent value raises
the generated message, because the code tests `errorMsg ||` with
JavaScript truthiness and the empty string is falsy. -/
theorem errCall_ignores_empty_message :
    errCall (wrap .undefined) (some "") ≠ .thrown "" ∧
      errCall (wrap .undefined) (some "") = .thrown "undefined is not set" := by
  constructor
  · intro hcontra
    simp [errCall, wrap, oc, isAbsent, jsStringOr, stringOfKey] at hcontra
  · rfl

/-- C3 amended: the strict check returns the wrapped value unchanged when
present; when absent it raises the caller-supplied message if that
message is non-empty (truthy), and the generated message
"<pathLabel> is not set" otherwise — both when no message was supplied
and when the supplied message is the empty string — where the label of a
root handle renders as "undefined". -/
theorem errCall_semantics :
    (∀ (v : JSValue) (pk : Option String) (m : Option String),
        isAbsent v = false → errCall ⟨v, pk⟩ m = .ok v) ∧
    (∀ (v : JSValue) (pk : Option String) (m : String),
        isAbsent v = true → m ≠ "" →
          errCall ⟨v, pk⟩ (some m) = .thrown m) ∧
    (∀ (v : JSValue) (pk : Option String),
        isAbsent v = true →
          errCall ⟨v, pk⟩ none = .thrown (stringOfKey pk ++ " is not set")) ∧
    (∀ (v : JSValue) (pk : Option String),
        isAbsent v = true →
          errCall ⟨v, pk⟩ (some "")
            = .thrown (stringOfKey pk ++ " is not set")) ∧
    (∀ v : JSValue, isAbsent v = true →
        errCall ⟨v, none⟩ none = .thrown "undefined is not set") := by
  refine ⟨?_, ?_, ?_, ?_, ?_⟩
  · intro v pk m hv
    simp [errCall, hv]
  · intro v pk m hv hm
    simp [errCall, hv, jsStringOr, hm]
  · intro v pk hv
    simp [errCall, hv, jsStringOr]
  · intro v pk hv
    simp [errCall, hv, jsStringOr]
  · intro v hv
    simp [errCall, hv, jsStringOr, stringOfKey]

/-- Witness for C3 amended, at concrete present and absent handles. -/
theorem errCall_semantics_witness :
    (isAbsent (.bool false) = false ∧
        errCall ⟨.bool false, some "f"⟩ none = .ok (.bool false)) ∧
    (isAbsent .undefined = true ∧ ("boom" : String) ≠ "" ∧
        errCall ⟨.undefined, some "k"⟩ (some "boom") = .thrown "boom") ∧
    (isAbsent .null = true ∧
        errCall ⟨.null, some "k"⟩ none = .thrown "k is not set") ∧
    (isAbsent .undefined = true ∧
        errCall ⟨.undefined, none⟩ none = .thrown "undefined is not set") :=
  ⟨⟨rfl, errCall_semantics.1 (.bool false) (some "f") none rfl⟩,
   ⟨rfl, by decide, errCall_semantics.2.1 .undefined (some "k") "boom" rfl (by decide)⟩,
   ⟨rfl, errCall_semantics.2.2.1 .null (some "k") rfl⟩,
   ⟨rfl, errCall_semantics.2.2.2.2 .undefined rfl⟩⟩

/-- C4: lookup and the terminal call are total functions in this model
(their codomains have no failure case; only `errCall` can produce a
`thrown` result), and once a chain starts from an absent value, after any
further finite sequence of lookups the no-argument terminal call returns
`undefined`. -/
theorem absent_chain_terminal_undef (v : JSValue) (pk : Option String)
    (ks : List String) (hv : isAbsent v = true) :
    terminalCallNoArg (chainStep ⟨v, pk⟩ ks) = .undefined := by
  rw [terminalCallNoArg_eq_denull, denull, if_pos (chainStep_absent ks v pk hv)]

/-- Witness for C4: a 13-key chain hanging off an absent root resolves to
`undefined`, as in the spec's deep nonexistent chain scenario. -/
theorem absent_chain_terminal_undef_witness :
    isAbsent .undefined = true ∧
      terminalCallNoArg (chainStep ⟨.undefined, some "y"⟩
        ["z", "a", "b", "c", "d", "e", "f", "g", "h", "i", "j", "k"]) = .undefined :=
  ⟨rfl, absent_chain_terminal_undef .undefined (some "y")
    ["z", "a", "b", "c", "d", "e", "f", "g", "h", "i", "j", "k"] rfl⟩

/-- C5: absence propagates forward and is never recovered by lookup:
from an absent wrapped value, one lookup yields an absent wrapped value,
every further chain of lookups keeps the wrapped value absent, and along
such a chain only a non-absent default supplied at the terminal call
produces a non-absent result. -/
theorem absence_propagates (v : JSValue) (pk : Option String) (k : String)
    (ks : List String) (hv : isAbsent v = true) :
    isAbsent (lookupStep ⟨v, pk⟩ k).data = true ∧
    isAbsent (chainStep ⟨v, pk⟩ ks).data = true ∧
    (∀ d : JSValue, isAbsent d = false →
        isAbsent (terminalCall (chainStep ⟨v, pk⟩ ks) d) = false) := by
  refine ⟨?_, chainStep_absent ks v pk hv, ?_⟩
  · rw [lookupStep_absent v pk k hv]
    rfl
  · intro d hd
    rw [terminalCall, if_pos (chainStep_absent ks v pk hv)]
    exact hd

/-- Witness for C5 at a null start, a one-key step and a two-key chain. -/
theorem absence_propagates_witness :
    isAbsent .null = true ∧
      (isAbsent (lookupStep ⟨.null, some "d"⟩ "e").data = true ∧
       isAbsent (chainStep ⟨.null, some "d"⟩ ["e", "f"]).data = true ∧
       (∀ d : JSValue, isAbsent d = false →
          isAbsent (terminalCall (chainStep ⟨.null, some "d"⟩ ["e", "f"]) d)
            = false)) :=
  ⟨rfl, absence_propagates .null (some "d") "e" ["e", "f"] rfl⟩

/-- C6: the reserved key '_err' is intercepted before the general lookup
rule on every handle and always yields the strict-check operation, never
a nested handle — even when the wrapped object carries its own data
property named '_err', which the ordinary property read would otherwise
find. -/
theorem err_key_always_intercepted :
    (∀ h : Handle, get h "_err" = .errOp h) ∧
    (∀ h : Handle, ∀ h2 : Handle, get h "_err" ≠ .handle h2) ∧
    (get ⟨.obj [("_err", .num 7)], none⟩ "_err"
        = .errOp ⟨.obj [("_err", .num 7)], none⟩ ∧
      getProp (.obj [("_err", .num 7)]) "_err" = .num 7) := by
  refine ⟨fun h => rfl, ?_, rfl, rfl⟩
  intro h h2 hcontra
  rw [get, if_pos rfl] at hcontra
  exact GetResult.noConfusion hcontra

/-- C7: the length query goes through the same generic lookup path: on an
absent sequence it resolves to `undefined`, and on a present sequence of
size N it resolves to N, both as instances of the one generic lookup rule
(no special-cased bounds logic exists in `lookupStep`). -/
theorem length_query_generic (v : JSValue) (pk : Option String)
    (l : List JSValue) (hv : isAbsent v = true) :
    terminalCallNoArg (lookupStep ⟨v, pk⟩ "length") = .undefined ∧
    terminalCallNoArg (lookupStep ⟨.arr l, pk⟩ "length") = .num l.length := by
  constructor
  · rw [lookupStep_absent v pk "length" hv]
    rfl
  · rw [lookupStep_eq]
    simp [isStructured, getProp, terminalCallNoArg, terminalCall, isAbsent]

/-- Witness for C7: length of the absent root and of the spec scenario's
three-element array c. -/
theorem length_query_generic_witness :
    isAbsent .null = true ∧
      (terminalCallNoArg (lookupStep ⟨.null, some "c"⟩ "length") = .undefined ∧
       terminalCallNoArg (lookupStep
          ⟨.arr [.num (-100), .num 200, .num (-300)], some "c"⟩ "length")
         = .num 3) :=
  ⟨rfl, length_query_generic .null (some "c")
    [.num (-100), .num 200, .num (-300)] rfl⟩

/-- C8: every handle is stateless and lookup is a deterministic pure
function of the pair (current wrapped value, key): two handles with the
same wrapped value produce identical results for every key, regardless of
their recorded path labels, and recomputing the same lookup on the same
handle yields the same handle.  The embedding is pure because the source
trap performs no assignment: it only reads `data` and `key` and allocates
a fresh proxy, so no operation mutates the source structure or memoizes. -/
theorem lookup_stateless (h1 h2 : Handle) (k : String)
    (hdata : h1.data = h2.data) :
    lookupStep h1 k = lookupStep h2 k ∧
      terminalCallNoArg (lookupStep h1 k)
        = terminalCallNoArg (lookupStep h1 k) := by
  constructor
  · cases h1 with
    | mk v1 pk1 =>
      cases h2 with
      | mk v2 pk2 =>
        cases hdata
        rfl
  · rfl

/-- Witness for C8: handles sharing the value but not the label agree. -/
theorem lookup_stateless_witness :
    (Handle.mk (.obj [("d", .str "world")]) none).data
        = (Handle.mk (.obj [("d", .str "world")]) (some "b")).data ∧
      (lookupStep ⟨.obj [("d", .str "world")], none⟩ "d"
          = lookupStep ⟨.obj [("d", .str "world")], some "b"⟩ "d" ∧
        terminalCallNoArg (lookupStep ⟨.obj [("d", .str "world")], none⟩ "d")
          = terminalCallNoArg
              (lookupStep ⟨.obj [("d", .str "world")], none⟩ "d")) :=
  ⟨rfl, lookup_stateless ⟨.obj [("d", .str "world")], none⟩
    ⟨.obj [("d", .str "world")], some "b"⟩ "d" rfl⟩

/-- C9: the structured-ness test is `typeof obj === 'object'`, so
function values — like strings, numbers and booleans — are not
structured, and looking up any ordinary key on a handle wrapping a
function yields a handle wrapping `undefined`. -/
theorem fn_lookup_absent (n : Nat) (pk : Option String) (k : String)
    (hk : k ≠ "_err") :
    get ⟨.fn n, pk⟩ k = .handle ⟨.undefined, some k⟩ ∧
    typeofIsObject (.fn n) = false ∧
    (∀ s : String, typeofIsObject (.str s) = false) ∧
    (∀ i : Int, typeofIsObject (.num i) = false) ∧
    (∀ b : Bool, typeofIsObject (.bool b) = false) := by
  refine ⟨?_, rfl, fun s => rfl, fun i => rfl, fun b => rfl⟩
  rw [get, if_neg hk]
  rfl

/-- Witness for C9: the key "call" on a wrapped function resolves to an
absent handle even though host functions do carry such properties. -/
theorem fn_lookup_absent_witness :
    ("call" : String) ≠ "_err" ∧
      (get ⟨.fn 0, some "g"⟩ "call" = .handle ⟨.undefined, some "call"⟩ ∧
       typeofIsObject (.fn 0) = false ∧
       (∀ s : String, typeofIsObject (.str s) = false) ∧
       (∀ i : Int, typeofIsObject (.num i) = false) ∧
       (∀ b : Bool, typeofIsObject (.bool b) = false)) :=
  ⟨by decide, fn_lookup_absent 0 (some "g") "call" (by decide)⟩

/-- C10: lookup never dereferences `null`.  Although
`typeof null === 'object'` in the host language, step 1 of lookup — the
no-default terminal resolution — converts `null` to `undefined` before the
structured-ness test, so the value the property read is applied to is
never `null`, and looking up any key on a handle wrapping exactly `null`
yields an absent handle without any fault. -/
theorem null_lookup_safe :
    typeofIsObject .null = true ∧
    (∀ pk : Option String, terminalCallNoArg ⟨.null, pk⟩ = .undefined) ∧
    (∀ h : Handle, terminalCallNoArg h ≠ .null) ∧
    (∀ (pk : Option String) (k : String),
        lookupStep ⟨.null, pk⟩ k = ⟨.undefined, some k⟩) := by
  refine ⟨rfl, fun pk => rfl, ?_, fun pk k => rfl⟩
  intro h hcontra
  cases h with
  | mk v pk =>
    cases v <;> simp [terminalCallNoArg, terminalCall, isAbsent] at hcontra

end TsOptchain
